import Mathlib

/-!
Shallow embedding of the ArogyaAI frontend core: the resilient query gateway
(`ApiClient.fetchWithTimeout` / `ApiClient.query` in `frontend/src/lib/api.ts`)
and the conversation controller (`handleSendMessage` in the `Chat` component),
together with the chat input guard (`ChatInput.handleSend`).

JavaScript strings are Lean `String`s, thrown JS values are modelled explicitly,
and JS truthiness of optional strings / booleans is made explicit.  Time is
modelled in milliseconds: each attempt offered by the environment has a raw
`fetch` settle time, and the deadline timer wins the race whenever it fires at
or before that settle time.
-/

namespace ArogyaAI

/-- JS truthiness of an optional string value: `undefined` and `""` are falsy. -/
def strTruthy : Option String → Bool
  | none => false
  | some s => !(s == "")

/-- JS truthiness of an optional boolean value: only `true` is truthy. -/
def boolTruthy : Option Bool → Bool
  | some b => b
  | none => false

/-- JS `a || b` for an optional string `a` with string default `b`
(`undefined` and `""` both fall through to the default). -/
def jsOr (a : Option String) (b : String) : String :=
  match a with
  | some s => if s == "" then b else s
  | none => b

/-- Whether `needle` is a prefix of `hay`, on character lists. -/
def startsWithL : List Char → List Char → Bool
  | _, [] => true
  | [], _ :: _ => false
  | a :: as, b :: bs => a == b && startsWithL as bs

/-- Whether `needle` occurs contiguously inside `hay`, on character lists. -/
def containsL : List Char → List Char → Bool
  | [], needle => startsWithL [] needle
  | h :: tl, needle => startsWithL (h :: tl) needle || containsL tl needle

/-- JS `hay.includes(needle)`: contiguous substring test. -/
def sIncludes (hay needle : String) : Bool :=
  containsL hay.data needle.data

/-- Whitespace as trimmed by JS `String.prototype.trim`. -/
def jsIsWhitespace (c : Char) : Bool :=
  c == ' ' || c == '\t' || c == '\n' || c == '\r' || c == '\x0b' || c == '\x0c'

/-- JS `s.trim()`: strip whitespace from both ends. -/
def jsTrim (s : String) : String :=
  ⟨((s.data.dropWhile jsIsWhitespace).reverse.dropWhile jsIsWhitespace).reverse⟩

/-- Parsed JSON body of the `/api/query` endpoint
(`QueryResponse` in `frontend/src/types/api.ts`; only the fields the core reads). -/
structure QueryResponse where
  status : String
  response : Option String
  message : Option String
  detected_language : Option String
  was_translated : Option Bool
deriving Repr, DecidableEq

instance {α β : Type} [DecidableEq α] [DecidableEq β] : DecidableEq (Except α β) := fun x y =>
  match x, y with
  | .ok a, .ok b =>
    if h : a = b then .isTrue (congrArg Except.ok h)
    else .isFalse (fun he => h (Except.ok.inj he))
  | .ok _, .error _ => .isFalse (fun he => Except.noConfusion he)
  | .error _, .ok _ => .isFalse (fun he => Except.noConfusion he)
  | .error a, .error b =>
    if h : a = b then .isTrue (congrArg Except.error h)
    else .isFalse (fun he => h (Except.error.inj he))

/-- An HTTP response as observed by the client: `ok`, numeric `status`,
the `detail` field of `response.json().catch(fun => default)` on the non-ok path
(`none` when absent or when the body fails to parse), the result of
`response.json()` on the ok path (`.error m` models a parse rejection whose
`Error` carries message `m`), and `bodyMs` — how many milliseconds the
`response.json()` body read takes to settle.  The `fetch` promise resolves on
response headers and `clearTimeout` disarms the deadline timer at that moment,
so nothing bounds `bodyMs`. -/
structure Response where
  ok : Bool
  status : Nat
  detail : Option String
  body : Except String QueryResponse
  bodyMs : Nat
deriving Repr, DecidableEq

/-- What a raw `fetch` settles to, absent the deadline timer: a response, or a
rejection with a thrown value (`isError`: whether it is an `Error` instance;
its `name` and `message`). -/
inductive FetchEvent where
  | resolve (r : Response)
  | reject (isError : Bool) (name msg : String)
deriving Repr, DecidableEq

/-- One attempt as offered by the environment: how many milliseconds the raw
`fetch` would take to settle, and what it settles to. -/
structure AttemptSpec where
  duration : Nat
  event : FetchEvent
deriving Repr, DecidableEq

/-- A thrown JS value as seen by a `catch` clause. -/
structure Thrown where
  isError : Bool
  name : String
  msg : String
deriving Repr, DecidableEq

/-- Message of the `Error` replacing an `AbortError` in `fetchWithTimeout`. -/
def timedOutMsg : String := "Request timed out. Please refresh the page and try again."

/-- Message of the `Error` replacing a fetch-flavoured rejection in `fetchWithTimeout`. -/
def connFailedMsg : String := "Connection failed. Please check your internet and refresh the page."

/-- Message thrown by `query` on a non-ok response with no usable `detail`. -/
def httpErrMsg (status : Nat) : String := "HTTP error! status: " ++ toString status

/-- `ApiClient.fetchWithTimeout` with deadline `timeout` ms, applied to one
environment-offered attempt: the timer aborts the fetch when it fires first
(at `timeout ≤ duration`), making the fetch reject with an `AbortError`, which
the catch clause rewrites to `timedOutMsg`; a rejection whose message mentions
`fetch` is rewritten to `connFailedMsg`; other thrown values pass through.
Returns the elapsed milliseconds and the settled result. -/
def fetchWithTimeout (timeout : Nat) (a : AttemptSpec) : Nat × Except Thrown Response :=
  if timeout ≤ a.duration then
    (timeout, .error ⟨true, "Error", timedOutMsg⟩)
  else
    match a.event with
    | .resolve r => (a.duration, .ok r)
    | .reject isErr name msg =>
      (a.duration,
        .error (if isErr then
                  if name == "AbortError" then ⟨true, "Error", timedOutMsg⟩
                  else if sIncludes msg "fetch" then ⟨true, "Error", connFailedMsg⟩
                  else ⟨isErr, name, msg⟩
                else ⟨isErr, name, msg⟩))

/-- One iteration of the retry loop body in `ApiClient.query`: run
`fetchWithTimeout`; a non-ok response throws `new Error(errorData.detail ||
httpErrMsg status)`; an ok response whose body fails to parse throws the parse
error; otherwise the parsed `QueryResponse` is returned.  Whenever a response
was delivered, the loop body awaits `response.json()` (on the ok path, or the
`.catch`-guarded read on the non-ok path) AFTER `clearTimeout` has disarmed the
deadline timer, so the attempt's elapsed time additionally includes the
uncapped `bodyMs`. -/
def queryAttempt (timeout : Nat) (a : AttemptSpec) : Nat × Except Thrown QueryResponse :=
  let p := fetchWithTimeout timeout a
  match p.2 with
  | .error e => (p.1, .error e)
  | .ok r =>
    (p.1 + r.bodyMs,
      if r.ok then
        match r.body with
        | .ok q => .ok q
        | .error m => .error ⟨true, "SyntaxError", m⟩
      else
        .error ⟨true, "Error", jsOr r.detail (httpErrMsg r.status)⟩)

/-- Body-read milliseconds actually incurred by one attempt: zero when the
deadline timer fired first or the raw fetch rejected (no response body is ever
read), and the uncapped `bodyMs` of the delivered response otherwise. -/
def bodyReadMs (timeout : Nat) (a : AttemptSpec) : Nat :=
  if timeout ≤ a.duration then 0
  else
    match a.event with
    | .resolve r => r.bodyMs
    | .reject _ _ _ => 0

/-- Whether one retry-loop iteration with deadline `timeout` ends in a throw. -/
def attemptFailed (timeout : Nat) (a : AttemptSpec) : Bool :=
  match (queryAttempt timeout a).2 with
  | .error _ => true
  | .ok _ => false

/-- `lastError = error instanceof Error ? error : new Error(...)` message. -/
def lastErrorMsg (e : Thrown) : String :=
  if e.isError then e.msg else "Unknown error"

/-- Friendly terminal message for timeout-flavoured failures. -/
def timeoutFriendly : String :=
  "The server is taking longer than expected to respond. Please refresh the page and try again. This often happens when the server is starting up."

/-- Friendly terminal message for connection-flavoured failures. -/
def connectionFriendly : String :=
  "Unable to connect to the server. Please check your internet connection and refresh the page."

/-- The final error mapping at the bottom of `ApiClient.query`: substring
matching on the last attempt error message. -/
def classifyFinal (m : String) : String :=
  if sIncludes m "timed out" || sIncludes m "AbortError" then timeoutFriendly
  else if sIncludes m "Connection failed" || sIncludes m "fetch" then connectionFriendly
  else "Failed to send query: " ++ m

/-- Observable trace of one `ApiClient.query` call: the deadline passed to
`fetchWithTimeout` for each attempt issued (in order), the inter-retry delays
(in order), the total elapsed milliseconds, and the settled result — a parsed
`QueryResponse` or the message of the finally-thrown `Error`. -/
structure QueryTrace where
  deadlines : List Nat
  delays : List Nat
  elapsed : Nat
  result : Except String QueryResponse
deriving Repr, DecidableEq

/-- `ApiClient.query`: up to `maxRetries = 2` attempts — attempt 1 with a
30000 ms deadline; on any throw, a fixed 2000 ms delay and attempt 2 with a
60000 ms deadline; a throw on the final attempt becomes the classified
terminal error. -/
def query (a1 a2 : AttemptSpec) : QueryTrace :=
  match queryAttempt 30000 a1 with
  | (t1, .ok q) => ⟨[30000], [], t1, .ok q⟩
  | (t1, .error _) =>
    match queryAttempt 60000 a2 with
    | (t2, .ok q) => ⟨[30000, 60000], [2000], t1 + 2000 + t2, .ok q⟩
    | (t2, .error e2) =>
      ⟨[30000, 60000], [2000], t1 + 2000 + t2, .error (classifyFinal (lastErrorMsg e2))⟩

/-- One conversation entry as the `Chat` component stores it (`Message` in
`types/api.ts`; the random `id` and wall-clock `timestamp` carry no logic and
are outside the embedding). -/
structure Message where
  content : String
  isUser : Bool
deriving Repr, DecidableEq

/-- The `Chat` component state: `messages`, `loading`, `error`, `showExamples`,
`lastDetectedLanguage`. -/
structure ChatState where
  messages : List Message
  loading : Bool
  error : Option String
  showExamples : Bool
  lastDetectedLanguage : Option String
deriving Repr, DecidableEq

/-- Spec-level view of the Chat UI status: `Sending` while `loading`, `Error`
while an error message is set, `Idle` otherwise. -/
inductive Status where
  | Idle
  | Sending
  | Error (detail : String)
deriving Repr, DecidableEq

/-- Status read off a `ChatState`. -/
def ChatState.status (s : ChatState) : Status :=
  if s.loading then .Sending
  else
    match s.error with
    | some e => .Error e
    | none => .Idle

/-- How one awaited `apiClient.query(...)` call settles, as observed by the
controller: a resolved `QueryResponse`, or a thrown value (`isError`: whether
it is an `Error` instance, and its message). -/
inductive Outcome where
  | ok (q : QueryResponse)
  | thrown (isError : Bool) (msg : String)
deriving Repr, DecidableEq

/-- The language-detection marker prepended to a translated answer. -/
def detectionTag (lang : String) : String :=
  "🌍 *Detected Language: " ++ lang ++ "*\n\n"

/-- The `isConnectionError` test in the controller catch clause. -/
def connectionErrorLike (m : String) : Bool :=
  sIncludes m "timed out" || sIncludes m "Connection failed" || sIncludes m "server is starting up"

/-- The `friendlyMessage` rendered into the error chat bubble. -/
def friendlyFailureText (m : String) : String :=
  if connectionErrorLike m then
    "🔄 **Connection Issue**: The server might be starting up or there\x27s a network issue.\n\n**Quick Fix**: Please refresh this page and try again. This usually resolves the issue!\n\n*Technical details: " ++ m ++ "*"
  else
    "❌ Sorry, I encountered an error: " ++ m

/-- Result of one `handleSendMessage` run: the resulting component state and
whether `apiClient.query` was invoked during the run. -/
structure SendResult where
  state : ChatState
  gatewayCalled : Bool
deriving Repr, DecidableEq

/-- `handleSendMessage` of the `Chat` component, driven by how the single
`apiClient.query` call it issues settles (`out`): append the user entry,
hide the examples, set `loading`, clear `error`; on a resolved payload with
`status === "success"` and a truthy `response`, record a truthy
`detected_language`, render the (possibly tagged) answer and append the
assistant entry; otherwise throw `response.message || "Failed to get
response"`; the catch clause records the error and appends the friendly
failure entry; the finally clause resets `loading`. -/
def handleSendMessage (s : ChatState) (messageText : String) (out : Outcome) : SendResult :=
  let s1 : ChatState :=
    { s with
      messages := s.messages ++ [⟨messageText, true⟩]
      showExamples := false
      loading := true
      error := none }
  let s2 : ChatState :=
    match out with
    | .ok q =>
      if q.status == "success" && strTruthy q.response then
        let s1a : ChatState :=
          if strTruthy q.detected_language then
            { s1 with lastDetectedLanguage := q.detected_language }
          else s1
        let answer : String := q.response.getD ""
        let content : String :=
          if boolTruthy q.was_translated && strTruthy q.detected_language
              && !(q.detected_language.getD "" == "English") then
            detectionTag (q.detected_language.getD "") ++ answer
          else answer
        { s1a with messages := s1a.messages ++ [⟨content, false⟩] }
      else
        let m : String := jsOr q.message "Failed to get response"
        { s1 with
          error := some m
          messages := s1.messages ++ [⟨friendlyFailureText m, false⟩] }
    | .thrown isErr msg =>
      let m : String := if isErr then msg else "Unknown error occurred"
      { s1 with
        error := some m
        messages := s1.messages ++ [⟨friendlyFailureText m, false⟩] }
  ⟨{ s2 with loading := false }, true⟩

/-- `handleSelectQuery` of the `Chat` component: calls `handleSendMessage`
directly on the example query, with no guard of any kind. -/
def handleSelectQuery (s : ChatState) (q : String) (out : Outcome) : SendResult :=
  handleSendMessage s q out

/-- The `maxLength` attribute of the chat input element. -/
def chatInputMaxLength : Nat := 500

/-- What the input element retains of a typed value: `maxLength` keeps user
input at no more than 500 characters. -/
def acceptUserInput (v : String) : String :=
  ⟨v.data.take chatInputMaxLength⟩

/-- `handleSend` of `ChatInput`: the text forwarded to `onSendMessage`, or
`none` when nothing is forwarded (trimmed text empty, or `loading`). -/
def handleSend (message : String) (loading : Bool) : Option String :=
  let trimmedMessage := jsTrim message
  if trimmedMessage ≠ "" ∧ loading = false then some trimmedMessage else none

/-- A whole UI submission through `ChatInput`: when the guard forwards a text,
`handleSendMessage` runs on it; otherwise nothing happens at all. -/
def submitViaChatInput (s : ChatState) (raw : String) (out : Outcome) : SendResult :=
  match handleSend raw s.loading with
  | none => ⟨s, false⟩
  | some t => handleSendMessage s t out

/-! Helper lemmas -/

theorem fetchWithTimeout_fst_le (T : Nat) (a : AttemptSpec) :
    (fetchWithTimeout T a).1 ≤ T := by
  rcases a with ⟨d, ev⟩
  by_cases h : T ≤ d
  · simp [fetchWithTimeout, h]
  · cases ev <;> simp [fetchWithTimeout, h] <;> omega

theorem queryAttempt_fst_le (T : Nat) (a : AttemptSpec) :
    (queryAttempt T a).1 ≤ T + bodyReadMs T a := by
  rcases a with ⟨d, ev⟩
  by_cases h : T ≤ d
  · simp [queryAttempt, fetchWithTimeout, bodyReadMs, h]
  · cases ev <;> simp [queryAttempt, fetchWithTimeout, bodyReadMs, h] <;> omega

theorem listDropWhile_length_le (p : Char → Bool) (l : List Char) :
    (l.dropWhile p).length ≤ l.length := by
  induction l with
  | nil => simp [List.dropWhile]
  | cons a tl ih =>
    by_cases h : p a <;> simp [List.dropWhile, h] <;> omega

theorem jsTrim_length_le (s : String) : (jsTrim s).length ≤ s.length := by
  have h1 := listDropWhile_length_le jsIsWhitespace s.data
  have h2 := listDropWhile_length_le jsIsWhitespace
    ((s.data.dropWhile jsIsWhitespace).reverse)
  show (((s.data.dropWhile jsIsWhitespace).reverse.dropWhile jsIsWhitespace).reverse).length
      ≤ s.data.length
  simp only [List.length_reverse] at h2 ⊢
  omega

theorem acceptUserInput_length_le (v : String) : (acceptUserInput v).length ≤ 500 := by
  show (v.data.take chatInputMaxLength).length ≤ 500
  simp [List.length_take, chatInputMaxLength]

/-! Claim theorems -/

/-- Claim C1, counterexample: an HTTP 500 backend error response on the first
attempt does NOT end the transaction: the gateway issues a second attempt
(deadlines `[30000, 60000]`), lets the 2000 ms retry delay elapse, and only
then surfaces the failure — contradicting "exactly one attempt is made and no
retry delay elapses". -/
theorem C1_counterexample :
    (query ⟨10, .resolve ⟨false, 500, some "boom", .error "x", 0⟩⟩
           ⟨10, .resolve ⟨false, 500, some "boom", .error "x", 0⟩⟩).deadlines.length = 2 ∧
    (query ⟨10, .resolve ⟨false, 500, some "boom", .error "x", 0⟩⟩
           ⟨10, .resolve ⟨false, 500, some "boom", .error "x", 0⟩⟩).delays = [2000] ∧
    (query ⟨10, .resolve ⟨false, 500, some "boom", .error "x", 0⟩⟩
           ⟨10, .resolve ⟨false, 500, some "boom", .error "x", 0⟩⟩).result
      = .error ("Failed to send query: boom") := by
  decide

/-- Claim C1, amended: a well-formed backend error response (non-2xx) on the
first attempt is retried like any other failure — the second attempt is issued
with the 60000 ms deadline after the 2000 ms delay, and when the final attempt
also returns a backend error response its detail is surfaced as
`Failed to send query: <detail>` (for a non-empty detail free of the
classifier substrings). -/
theorem C1_server_error_retried (a1 a2 : AttemptSpec) (r1 r2 : Response) (d : String)
    (h1d : a1.duration < 30000) (h1e : a1.event = .resolve r1) (h1ok : r1.ok = false)
    (h2d : a2.duration < 60000) (h2e : a2.event = .resolve r2) (h2ok : r2.ok = false)
    (h2det : r2.detail = some d) (hne : d ≠ "")
    (hn1 : sIncludes d "timed out" = false) (hn2 : sIncludes d "AbortError" = false)
    (hn3 : sIncludes d "Connection failed" = false) (hn4 : sIncludes d "fetch" = false) :
    (query a1 a2).deadlines = [30000, 60000] ∧
    (query a1 a2).delays = [2000] ∧
    (query a1 a2).result = .error ("Failed to send query: " ++ d) := by
  have e1 : queryAttempt 30000 a1
      = (a1.duration + r1.bodyMs,
         .error ⟨true, "Error", jsOr r1.detail (httpErrMsg r1.status)⟩) := by
    simp [queryAttempt, fetchWithTimeout, Nat.not_le.mpr h1d, h1e, h1ok]
  have e2 : queryAttempt 60000 a2
      = (a2.duration + r2.bodyMs, .error ⟨true, "Error", d⟩) := by
    simp [queryAttempt, fetchWithTimeout, Nat.not_le.mpr h2d, h2e, h2ok, h2det, jsOr, hne]
  simp [query, e1, e2, lastErrorMsg, classifyFinal, hn1, hn2, hn3, hn4]

/-- Witness for `C1_server_error_retried` at concrete 500-responses. -/
theorem C1_witness :
    ((⟨10, .resolve ⟨false, 500, some "sad", .error "x", 0⟩⟩ : AttemptSpec).duration < 30000) ∧
    ((query ⟨10, .resolve ⟨false, 500, some "sad", .error "x", 0⟩⟩
            ⟨10, .resolve ⟨false, 500, some "sad", .error "x", 0⟩⟩).deadlines = [30000, 60000] ∧
     (query ⟨10, .resolve ⟨false, 500, some "sad", .error "x", 0⟩⟩
            ⟨10, .resolve ⟨false, 500, some "sad", .error "x", 0⟩⟩).delays = [2000] ∧
     (query ⟨10, .resolve ⟨false, 500, some "sad", .error "x", 0⟩⟩
            ⟨10, .resolve ⟨false, 500, some "sad", .error "x", 0⟩⟩).result
       = .error ("Failed to send query: sad")) :=
  ⟨by decide,
   C1_server_error_retried
     ⟨10, .resolve ⟨false, 500, some "sad", .error "x", 0⟩⟩
     ⟨10, .resolve ⟨false, 500, some "sad", .error "x", 0⟩⟩
     ⟨false, 500, some "sad", .error "x", 0⟩ ⟨false, 500, some "sad", .error "x", 0⟩ "sad"
     (by decide) rfl rfl (by decide) rfl rfl rfl (by decide)
     (by decide) (by decide) (by decide) (by decide)⟩

/-- Claim C3, counterexample: attempt 1 fails with a well-formed backend error
response (HTTP 503) — a non-retryable condition per the claim's taxonomy —
yet a second attempt is issued, contradicting "attempt 2, issued only if
attempt 1 fails with a retryable condition". -/
theorem C3_counterexample :
    (query ⟨5, .resolve ⟨false, 503, none, .error "x", 0⟩⟩
           ⟨5, .resolve ⟨false, 503, none, .error "x", 0⟩⟩).deadlines = [30000, 60000] ∧
    (query ⟨5, .resolve ⟨false, 503, none, .error "x", 0⟩⟩
           ⟨5, .resolve ⟨false, 503, none, .error "x", 0⟩⟩).result
      = .error ("Failed to send query: HTTP error! status: 503") := by
  decide

/-- Claim C3, amended: at most 2 attempts are made in total; attempt 1 uses
the 30000 ms deadline; attempt 2 is issued exactly when attempt 1 fails for
any reason whatsoever (timeout, connection failure, backend error response,
or body parse failure), uses the 60000 ms deadline, and is preceded by the
fixed 2000 ms delay. -/
theorem C3_attempt_policy (a1 a2 : AttemptSpec) :
    (query a1 a2).deadlines.length ≤ 2 ∧
    (query a1 a2).deadlines
      = (if attemptFailed 30000 a1 then [30000, 60000] else [30000]) ∧
    (query a1 a2).delays
      = (if attemptFailed 30000 a1 then [2000] else []) := by
  rcases h1 : queryAttempt 30000 a1 with ⟨t1, r1⟩
  cases r1 with
  | ok q => simp [query, attemptFailed, h1]
  | error e =>
    rcases h2 : queryAttempt 60000 a2 with ⟨t2, r2⟩
    cases r2 <;> simp [query, attemptFailed, h1, h2]

/-- Claim C8, counterexample: a transport that delivers the response headers
10 ms into the first attempt — so `clearTimeout` disarms the deadline timer —
and then stalls the body for 10,000,000 ms makes `query` take 10,000,010 ms on
a 2-character text, far beyond the claimed 92,000 ms bound: the
`response.json()` awaits run with no timer and no abort signal armed, so no
configured deadline bounds the call. -/
theorem C8_counterexample :
    1 ≤ ("hi" : String).length ∧ ("hi" : String).length ≤ 500 ∧
    92000 <
      (query ⟨10, .resolve ⟨true, 200, none,
                .ok ⟨"success", some "ok", none, none, none⟩, 10000000⟩⟩
             ⟨10, .resolve ⟨true, 200, none,
                .ok ⟨"success", some "ok", none, none, none⟩, 0⟩⟩).elapsed := by
  decide

/-- Claim C8, amended: for any request text of length 1 to 500 and any
transport behavior (possibly depending on the text), `query` — a total
function, so every run settles — takes at most 30000 + 2000 + 60000 = 92000 ms
PLUS the body-read times of the responses actually delivered: the deadlines
bound only the wait for each attempt's response headers, because
`clearTimeout` disarms the timer the moment `fetch` resolves, leaving the
subsequent `response.json()` awaits unbounded. -/
theorem C8_elapsed_bound (text : String) (t : String → AttemptSpec × AttemptSpec)
    (h1 : 1 ≤ text.length) (h2 : text.length ≤ 500) :
    (query (t text).1 (t text).2).elapsed
      ≤ 92000 + bodyReadMs 30000 (t text).1 + bodyReadMs 60000 (t text).2 := by
  have b1 := queryAttempt_fst_le 30000 (t text).1
  have b2 := queryAttempt_fst_le 60000 (t text).2
  rcases hq1 : queryAttempt 30000 (t text).1 with ⟨t1, r1⟩
  rw [hq1] at b1
  cases r1 with
  | ok q => simp [query, hq1]; omega
  | error e =>
    rcases hq2 : queryAttempt 60000 (t text).2 with ⟨t2, r2⟩
    rw [hq2] at b2
    cases r2 <;> simp [query, hq1, hq2] <;> omega

/-- Concrete transport for the `C8_elapsed_bound` witness: attempt 1 delivers
headers inside the deadline but stalls the body; attempt 2 outlives its
deadline, so its body is never read. -/
def c8transport : String → AttemptSpec × AttemptSpec :=
  fun _ =>
    (⟨10, .resolve ⟨false, 500, some "slow", .error "x", 200000⟩⟩,
     ⟨999999, .resolve ⟨true, 200, none, .ok ⟨"success", some "ok", none, none, none⟩, 0⟩⟩)

/-- Witness for `C8_elapsed_bound` on a 2-character text: attempt 1 spends
10 ms on headers plus 200,000 ms on the stalled error body, attempt 2 is cut
at its 60,000 ms deadline, and the elapsed 262,010 ms respects the amended
bound 92,000 + 200,000 + 0. -/
theorem C8_witness :
    1 ≤ ("hi" : String).length ∧ ("hi" : String).length ≤ 500 ∧
    (query (c8transport "hi").1 (c8transport "hi").2).elapsed
      ≤ 92000 + bodyReadMs 30000 (c8transport "hi").1
          + bodyReadMs 60000 (c8transport "hi").2 :=
  ⟨by decide, by decide, C8_elapsed_bound "hi" c8transport (by decide) (by decide)⟩

/-- Claim C2, counterexample: with the conversation in `Sending` status
(`loading = true`) and one entry in the log, a direct `handleSendMessage`
invocation is NOT a no-op — the entry count grows from 1 to 3 and another
gateway call is issued. The controller itself has no guard. -/
theorem C2_counterexample :
    (⟨[⟨"hi", true⟩], true, none, false, none⟩ : ChatState).status = .Sending ∧
    (handleSendMessage ⟨[⟨"hi", true⟩], true, none, false, none⟩ "again"
        (.thrown true "boom")).state.messages.length = 3 ∧
    (handleSendMessage ⟨[⟨"hi", true⟩], true, none, false, none⟩ "again"
        (.thrown true "boom")).gatewayCalled = true := by
  decide

/-- Claim C2, amended: the at-most-one-in-flight guard is enforced by
`ChatInput.handleSend`, not by the controller: submitting through the chat
input while `status = Sending` forwards nothing, so the state is unchanged
and no gateway call is issued; `handleSendMessage` invoked directly is
unguarded. -/
theorem C2_guard_in_chat_input (s : ChatState) (raw : String) (out : Outcome)
    (h : s.status = .Sending) :
    submitViaChatInput s raw out = ⟨s, false⟩ := by
  have hl : s.loading = true := by
    by_cases hb : s.loading = true
    · exact hb
    · exfalso
      unfold ChatState.status at h
      rw [if_neg hb] at h
      cases he : s.error <;> rw [he] at h <;> simp at h
  unfold submitViaChatInput handleSend
  rw [hl]
  simp

/-- Witness for `C2_guard_in_chat_input` at a concrete `Sending` state. -/
theorem C2_witness :
    (⟨[], true, none, true, none⟩ : ChatState).status = .Sending ∧
    submitViaChatInput ⟨[], true, none, true, none⟩ "hello" (.thrown true "x")
      = ⟨⟨[], true, none, true, none⟩, false⟩ :=
  ⟨by decide, C2_guard_in_chat_input ⟨[], true, none, true, none⟩ "hello"
      (.thrown true "x") (by decide)⟩

/-- Claim C4: when the gateway call ends in a failure (its classified message
thrown as an `Error`), the resulting state keeps every prior entry, still
contains the user's own entry, gains exactly one assistant-authored entry
rendering the failure, and ends with `loading` reset and status
`Error <message>`. -/
theorem C4_failure_preserves_conversation (s : ChatState) (text : String)
    (a1 a2 : AttemptSpec) (m : String)
    (h : (query a1 a2).result = .error m) :
    (handleSendMessage s text (.thrown true m)).state.messages
        = s.messages ++ [⟨text, true⟩, ⟨friendlyFailureText m, false⟩] ∧
    (handleSendMessage s text (.thrown true m)).state.error = some m ∧
    (handleSendMessage s text (.thrown true m)).state.loading = false ∧
    (handleSendMessage s text (.thrown true m)).state.status = .Error m := by
  refine ⟨?_, rfl, rfl, rfl⟩
  simp [handleSendMessage]

/-- Witness for `C4_failure_preserves_conversation` on a gateway run that ends
with two HTTP 500 responses. -/
theorem C4_witness :
    (query ⟨10, .resolve ⟨false, 500, some "oops", .error "x", 0⟩⟩
           ⟨10, .resolve ⟨false, 500, some "oops", .error "x", 0⟩⟩).result
        = .error ("Failed to send query: oops") ∧
    ((handleSendMessage ⟨[], false, none, true, none⟩ "hi"
        (.thrown true "Failed to send query: oops")).state.messages
        = [⟨"hi", true⟩, ⟨friendlyFailureText "Failed to send query: oops", false⟩] ∧
     (handleSendMessage ⟨[], false, none, true, none⟩ "hi"
        (.thrown true "Failed to send query: oops")).state.error
        = some "Failed to send query: oops" ∧
     (handleSendMessage ⟨[], false, none, true, none⟩ "hi"
        (.thrown true "Failed to send query: oops")).state.loading = false ∧
     (handleSendMessage ⟨[], false, none, true, none⟩ "hi"
        (.thrown true "Failed to send query: oops")).state.status
        = .Error "Failed to send query: oops") :=
  ⟨by decide,
   C4_failure_preserves_conversation ⟨[], false, none, true, none⟩ "hi"
     ⟨10, .resolve ⟨false, 500, some "oops", .error "x", 0⟩⟩
     ⟨10, .resolve ⟨false, 500, some "oops", .error "x", 0⟩⟩
     "Failed to send query: oops" (by decide)⟩

/-- Claim C7, counterexample: a `Success` outcome carrying the
`detected_language` field with value `""` is processed, but
`lastDetectedLanguage` is NOT set to that value (JS truthiness skips the
update) — contradicting the claim's "in which case it is set to that
value". -/
theorem C7_counterexample :
    (handleSendMessage ⟨[], false, none, true, some "Spanish"⟩ "hi"
        (.ok ⟨"success", some "ok", none, some "", none⟩)).state.lastDetectedLanguage
      = some "Spanish" ∧
    (some "Spanish" : Option String) ≠ some "" := by
  decide

/-- Claim C7, amended: `lastDetectedLanguage` changes only when a `Success`
outcome carrying a non-empty `detected_language` is processed, and is then set
to that value; it is never cleared or reset by any failure, by an outcome
lacking a detected language, or by one carrying an empty one. -/
theorem C7_last_detected_language (s : ChatState) (text : String) (out : Outcome) :
    (handleSendMessage s text out).state.lastDetectedLanguage
      = (match out with
         | .thrown _ _ => s.lastDetectedLanguage
         | .ok q =>
           match q.response, q.detected_language with
           | some r, some l =>
             if q.status = "success" ∧ r ≠ "" ∧ l ≠ "" then some l
             else s.lastDetectedLanguage
           | _, _ => s.lastDetectedLanguage) := by
  cases out with
  | thrown i m => rfl
  | ok q =>
    rcases q with ⟨st, resp, msg, dl, wt⟩
    by_cases hs : st = "success"
    · cases resp with
      | none => simp [handleSendMessage, strTruthy, hs]
      | some r =>
        by_cases hr : r = ""
        · cases dl <;> simp [handleSendMessage, strTruthy, hs, hr]
        · cases dl with
          | none => simp [handleSendMessage, strTruthy, hs, hr]
          | some l =>
            by_cases hl : l = "" <;>
              simp [handleSendMessage, strTruthy, hs, hr, hl]
    · cases resp <;> cases dl <;>
        simp [handleSendMessage, strTruthy, hs]

/-- Claim C9: every completion of `handleSendMessage` — resolved payload,
failure payload, or thrown error — resets `loading` to `false` (the `finally`
clause), so the resulting status is never `Sending`. -/
theorem C9_loading_reset (s : ChatState) (text : String) (out : Outcome) :
    (handleSendMessage s text out).state.loading = false ∧
    (handleSendMessage s text out).state.status ≠ Status.Sending := by
  have hl : (handleSendMessage s text out).state.loading = false := by
    cases out <;> rfl
  refine ⟨hl, ?_⟩
  unfold ChatState.status
  rw [if_neg (by rw [hl]; simp)]
  cases he : (handleSendMessage s text out).state.error <;> simp

/-- Claim C5, counterexample: both attempts return a well-formed HTTP 500
backend response with detail `"could not fetch records"`, yet the terminal
failure is the connection-check guidance — the backend-provided detail is not
passed through at all (the classifier matches the substring `fetch` inside
it), contradicting "a backend error response passes the backend-provided
detail message through verbatim". -/
theorem C5_counterexample :
    (query ⟨10, .resolve ⟨false, 500, some "could not fetch records", .error "x", 0⟩⟩
           ⟨10, .resolve ⟨false, 500, some "could not fetch records", .error "x", 0⟩⟩).result
      = .error connectionFriendly ∧
    sIncludes connectionFriendly "could not fetch records" = false := by
  decide

/-- Claim C5, amended: given that attempt 1 failed, the outcome is determined
by the second (final) attempt, classified by substring matching on its error
message: a deadline expiry yields the timeout guidance; an `AbortError`
rejection yields the timeout guidance; a fetch-flavoured rejection yields the
connection guidance; a non-`Error` throw yields the generic
`Failed to send query: Unknown error`; a backend error response (and any other
`Error`) goes through `classifyFinal`, which passes the backend detail through
inside a `Failed to send query: ` prefix only when the detail avoids the
matched substrings. -/
theorem C5_classification (a1 a2 : AttemptSpec)
    (h1 : attemptFailed 30000 a1 = true) :
    (query a1 a2).result
      = (if 60000 ≤ a2.duration then .error timeoutFriendly
         else
           match a2.event with
           | .resolve r =>
             if r.ok then
               match r.body with
               | .ok q => .ok q
               | .error pm => .error (classifyFinal pm)
             else .error (classifyFinal (jsOr r.detail (httpErrMsg r.status)))
           | .reject isErr name msg =>
             if isErr then
               if name == "AbortError" then .error timeoutFriendly
               else if sIncludes msg "fetch" then .error connectionFriendly
               else .error (classifyFinal msg)
             else .error ("Failed to send query: Unknown error")) := by
  have hcTimed : classifyFinal timedOutMsg = timeoutFriendly := by decide
  have hcConn : classifyFinal connFailedMsg = connectionFriendly := by decide
  have hcUnk : classifyFinal "Unknown error" = "Failed to send query: Unknown error" := by
    decide
  rcases hq1 : queryAttempt 30000 a1 with ⟨t1, r1⟩
  cases r1 with
  | ok q =>
    exfalso
    unfold attemptFailed at h1
    rw [hq1] at h1
    simp at h1
  | error e1 =>
    by_cases hd : 60000 ≤ a2.duration
    · have hq2 : queryAttempt 60000 a2 = (60000, .error ⟨true, "Error", timedOutMsg⟩) := by
        simp [queryAttempt, fetchWithTimeout, hd]
      simp [query, hq1, hq2, lastErrorMsg, hcTimed, hd]
    · cases he2 : a2.event with
      | resolve r =>
        by_cases hok : r.ok = true
        · cases hb : r.body with
          | ok q =>
            have hq2 : queryAttempt 60000 a2 = (a2.duration + r.bodyMs, .ok q) := by
              simp [queryAttempt, fetchWithTimeout, hd, he2, hok, hb]
            simp [query, hq1, hq2, hd, he2, hok, hb]
          | error pm =>
            have hq2 : queryAttempt 60000 a2
                = (a2.duration + r.bodyMs, .error ⟨true, "SyntaxError", pm⟩) := by
              simp [queryAttempt, fetchWithTimeout, hd, he2, hok, hb]
            simp [query, hq1, hq2, lastErrorMsg, hd, he2, hok, hb]
        · have hq2 : queryAttempt 60000 a2
              = (a2.duration + r.bodyMs,
                 .error ⟨true, "Error", jsOr r.detail (httpErrMsg r.status)⟩) := by
            simp [queryAttempt, fetchWithTimeout, hd, he2, hok]
          simp [query, hq1, hq2, lastErrorMsg, hd, he2, hok]
      | reject isErr name msg =>
        cases isErr with
        | false =>
          have hq2 : queryAttempt 60000 a2 = (a2.duration, .error ⟨false, name, msg⟩) := by
            simp [queryAttempt, fetchWithTimeout, hd, he2]
          simp [query, hq1, hq2, lastErrorMsg, hcUnk, hd, he2]
        | true =>
          by_cases hn : name = "AbortError"
          · have hq2 : queryAttempt 60000 a2
                = (a2.duration, .error ⟨true, "Error", timedOutMsg⟩) := by
              simp [queryAttempt, fetchWithTimeout, hd, he2, hn]
            simp [query, hq1, hq2, lastErrorMsg, hcTimed, hd, he2, hn]
          · by_cases hf : sIncludes msg "fetch" = true
            · have hq2 : queryAttempt 60000 a2
                  = (a2.duration, .error ⟨true, "Error", connFailedMsg⟩) := by
                simp [queryAttempt, fetchWithTimeout, hd, he2, hn, hf]
              simp [query, hq1, hq2, lastErrorMsg, hcConn, hd, he2, hn, hf]
            · have hq2 : queryAttempt 60000 a2
                  = (a2.duration, .error ⟨true, name, msg⟩) := by
                simp [queryAttempt, fetchWithTimeout, hd, he2, hn, hf]
              simp [query, hq1, hq2, lastErrorMsg, hd, he2, hn, hf]

/-- Witness for `C5_classification`: attempt 1 times out against its 30000 ms
deadline, attempt 2 outlives the 60000 ms deadline, and the outcome is the
timeout guidance. -/
theorem C5_witness :
    attemptFailed 30000
        ⟨40000, .resolve ⟨true, 200, none, .ok ⟨"success", some "hi", none, none, none⟩, 0⟩⟩
      = true ∧
    (query ⟨40000, .resolve ⟨true, 200, none, .ok ⟨"success", some "hi", none, none, none⟩, 0⟩⟩
           ⟨70000, .resolve ⟨true, 200, none, .ok ⟨"success", some "hi", none, none, none⟩, 0⟩⟩).result
      = .error timeoutFriendly :=
  ⟨by decide,
   (C5_classification
      ⟨40000, .resolve ⟨true, 200, none, .ok ⟨"success", some "hi", none, none, none⟩, 0⟩⟩
      ⟨70000, .resolve ⟨true, 200, none, .ok ⟨"success", some "hi", none, none, none⟩, 0⟩⟩
      (by decide)).trans (by decide)⟩

/-- Claim C6, counterexample: a `Success` outcome with `wasTranslated = true`
and `detectedLanguage` present with value `""` — a value that is present and
is not `"English"` — yields the plain answer with no language-detection
marker, contradicting the claim's "begins with a visible language-detection
annotation". -/
theorem C6_counterexample :
    (handleSendMessage ⟨[], false, none, true, none⟩ "hola"
        (.ok ⟨"success", some "Hello", none, some "", some true⟩)).state.messages
      = [⟨"hola", true⟩, ⟨"Hello", false⟩] ∧
    ¬ (("Hello" : String) = detectionTag "" ++ "Hello") := by
  decide

/-- Claim C6, amended: on a `Success` outcome (status `"success"` with a
non-empty answer), the appended assistant entry's text is the answer prefixed
with the language-detection marker exactly when `was_translated` is `true` and
`detected_language` is present, non-empty, and not `"English"`; otherwise it
is the plain answer. -/
theorem C6_language_tag (s : ChatState) (text ans : String) (q : QueryResponse)
    (h1 : q.status = "success") (h2 : q.response = some ans) (h3 : ans ≠ "") :
    (handleSendMessage s text (.ok q)).state.messages
      = s.messages ++ [⟨text, true⟩,
          ⟨(match q.detected_language with
            | some l =>
              if q.was_translated = some true ∧ l ≠ "" ∧ l ≠ "English" then
                detectionTag l ++ ans
              else ans
            | none => ans), false⟩] := by
  rcases q with ⟨st, resp, msg, dl, wt⟩
  simp only at h1 h2
  subst h1 h2
  cases dl with
  | none => simp [handleSendMessage, strTruthy, boolTruthy, h3]
  | some l =>
    cases wt with
    | none =>
      by_cases hl : l = "" <;>
        simp [handleSendMessage, strTruthy, boolTruthy, h3, hl]
    | some b =>
      cases b with
      | false =>
        by_cases hl : l = "" <;>
          simp [handleSendMessage, strTruthy, boolTruthy, h3, hl]
      | true =>
        by_cases hl : l = ""
        · simp [handleSendMessage, strTruthy, boolTruthy, h3, hl]
        · by_cases hE : l = "English" <;>
            simp [handleSendMessage, strTruthy, boolTruthy, h3, hl, hE]

/-- Witness for `C6_language_tag` on a translated Spanish success outcome. -/
theorem C6_witness :
    (⟨"success", some "Hola!", none, some "Spanish", some true⟩ : QueryResponse).status
        = "success" ∧
    (⟨"success", some "Hola!", none, some "Spanish", some true⟩ : QueryResponse).response
        = some "Hola!" ∧
    ("Hola!" : String) ≠ "" ∧
    (handleSendMessage ⟨[], false, none, true, none⟩ "hola"
        (.ok ⟨"success", some "Hola!", none, some "Spanish", some true⟩)).state.messages
      = [⟨"hola", true⟩, ⟨detectionTag "Spanish" ++ "Hola!", false⟩] :=
  ⟨rfl, rfl, by decide,
   (C6_language_tag ⟨[], false, none, true, none⟩ "hola" "Hola!"
      ⟨"success", some "Hola!", none, some "Spanish", some true⟩
      rfl rfl (by decide)).trans (by decide)⟩

/-- Claim C10: `ChatInput.handleSend` forwards a text to `onSendMessage`
exactly when the trimmed message is non-empty and `loading` is false, and it
forwards the trimmed text; under the input element's `maxLength` of 500 every
forwarded text has at most 500 characters; example-query selection
(`handleSelectQuery`) reaches the gateway unconditionally, with no such
guard. -/
theorem C10_input_guard (raw sel : String) (loading : Bool) (s : ChatState) (out : Outcome) :
    handleSend raw loading
        = (if jsTrim raw ≠ "" ∧ loading = false then some (jsTrim raw) else none) ∧
    (match handleSend (acceptUserInput raw) loading with
     | some t => t.length ≤ 500
     | none => True) ∧
    (handleSelectQuery s sel out).gatewayCalled = true := by
  refine ⟨rfl, ?_, rfl⟩
  unfold handleSend
  by_cases h : jsTrim (acceptUserInput raw) ≠ "" ∧ loading = false
  · rw [if_pos h]
    exact le_trans (jsTrim_length_le (acceptUserInput raw)) (acceptUserInput_length_le raw)
  · rw [if_neg h]
    trivial

end ArogyaAI
